import Mathlib

/-!
Verification of the coordinate-normalization and label-reconciliation logic of
the visual-llm-yolo-sam3-testing repository: a shallow embedding of the Python
labeling scripts (autoLabel.py, auto_label_poker.py, fastLabel.py,
train_poker.py) and of the inference services (detector main.py, sam3 main.py),
together with theorems about the embedded functions.

Conventions of the embedding:
- Python floats are modelled as rationals.
- Python strings are modelled as lists of characters; the scripts only ever
  lower-case ASCII class names, so lower-casing is modelled on the ASCII range.
- The JSON values produced by json.loads are modelled by the inductive Json;
  the stdlib parser json.loads is modelled by json_loads, a recursive-descent
  parser of the JSON grammar (objects, arrays, strings with the basic escapes,
  strict numbers, true/false/null) that fails exactly where the stdlib parser
  raises JSONDecodeError on the inputs considered here.
- A label store (the directory of .txt label files keyed by image stem) is a
  function from stems to an optional file content, a content being the list of
  its lines; a written line "cid x y w h" is modelled numerically by YoloLine,
  with the fixed 6-decimal rendering of a coordinate modelled by render6.
-/

/-- One parsed YOLO label line: class id and the four normalized coordinates.
In the scripts a line is the string "class_id x y w h"; here it is kept as the
numeric content of those five fields. -/
structure YoloLine where
  cid : ℕ
  x : ℚ
  y : ℚ
  w : ℚ
  h : ℚ
deriving DecidableEq

/-- Lower-casing of one ASCII character, as Python str.lower acts on the
class-name strings appearing in these scripts (all ASCII). -/
def lowerChar (c : Char) : Char :=
  if 'A' ≤ c ∧ c ≤ 'Z' then Char.ofNat (c.toNat + 32) else c

/-- Python s.lower() on an ASCII string. -/
def lowerStr (s : List Char) : List Char := s.map lowerChar

/-- Python s.replace(" ", "_"). -/
def underscoreSpaces (s : List Char) : List Char :=
  s.map (fun c => if c = ' ' then '_' else c)

/-- Occurrence of needle at some position of the second argument. -/
def occursIn (needle : List Char) : List Char → Bool
  | [] => needle.isEmpty
  | c :: rest => needle.isPrefixOf (c :: rest) || occursIn needle rest

/-- Python substring test: `needle in hay`. -/
def hasSub (hay needle : List Char) : Bool := occursIn needle hay

/-- Lookup of a class name in a {name : id} table, Python `name in CLASSES`
followed by `CLASSES[name]`. -/
def lookupClass : List (List Char × ℕ) → List Char → Option ℕ
  | [], _ => none
  | (k, v) :: rest, name => if k = name then some v else lookupClass rest name

/-- Python max(0, min(1, v)): clamp a fraction into [0, 1]. -/
def clamp01 (q : ℚ) : ℚ := max 0 (min 1 q)

/-- A label store: the label directory, keyed by image stem; some content when
a .txt artifact exists for that stem, none otherwise. -/
def Store : Type := String → Option (List YoloLine)

/-- Writing (or overwriting) one artifact in the label store. -/
def writeStore (store : Store) (stem : String) (content : List YoloLine) : Store :=
  fun s => if s = stem then some content else store s

/-- The JSON values json.loads can return. A number is kept as its exact
rational value, a string as its character content. -/
inductive Json where
  | null : Json
  | jbool : Bool → Json
  | num : ℚ → Json
  | str : List Char → Json
  | arr : List Json → Json
  | obj : List (List Char × Json) → Json

/-- JSON whitespace. -/
def isWsChar (c : Char) : Bool := c = ' ' || c = '\n' || c = '\t' || c = '\r'

/-- Drop leading JSON whitespace. -/
def skipWs (s : List Char) : List Char := s.dropWhile isWsChar

/-- ASCII digit test. -/
def isDigitChar (c : Char) : Bool := '0' ≤ c && c ≤ '9'

/-- Numeric value of a string of ASCII digits. -/
def digitsToNat (ds : List Char) : ℕ := ds.foldl (fun n c => 10 * n + (c.toNat - 48)) 0

/-- The integer part of a JSON number: one or more digits, no leading zero. -/
def parseIntPart (s : List Char) : Option (List Char × List Char) :=
  let ds := s.takeWhile isDigitChar
  if ds.isEmpty then none
  else if ds.headD '0' = '0' && ds.length > 1 then none
  else some (ds, s.drop ds.length)

/-- The optional fractional part of a JSON number: a dot and one or more
digits. -/
def parseFracPart (s : List Char) : Option (List Char × List Char) :=
  match s with
  | '.' :: rest =>
    let ds := rest.takeWhile isDigitChar
    if ds.isEmpty then none
    else some (ds, rest.drop ds.length)
  | _ => some ([], s)

/-- The optional exponent part of a JSON number: e or E, an optional sign, one
or more digits; the Bool is true for a negative exponent. -/
def parseExpPart (s : List Char) : Option ((Bool × List Char) × List Char) :=
  match s with
  | c :: rest =>
    if c = 'e' || c = 'E' then
      match rest with
      | '+' :: r2 =>
        let ds := r2.takeWhile isDigitChar
        if ds.isEmpty then none else some ((false, ds), r2.drop ds.length)
      | '-' :: r2 =>
        let ds := r2.takeWhile isDigitChar
        if ds.isEmpty then none else some ((true, ds), r2.drop ds.length)
      | _ =>
        let ds := rest.takeWhile isDigitChar
        if ds.isEmpty then none else some ((false, ds), rest.drop ds.length)
    else some ((false, []), s)
  | [] => some ((false, []), s)

/-- The exact rational value of a parsed JSON number given its sign, integer
digits, fraction digits and signed exponent digits. -/
def numberValue (neg : Bool) (intDs fracDs : List Char) (expNeg : Bool)
    (expDs : List Char) : ℚ :=
  let m : ℕ := digitsToNat (intDs ++ fracDs)
  let num : ℤ := if neg then -(m : ℤ) else (m : ℤ)
  let e : ℕ := digitsToNat expDs
  if expNeg then mkRat num (10 ^ fracDs.length * 10 ^ e)
  else mkRat (num * 10 ^ e) (10 ^ fracDs.length)

/-- A JSON number: optional minus, integer part, optional fraction and
exponent. -/
def parseNumber (s : List Char) : Option (ℚ × List Char) :=
  let (neg, s1) := match s with
    | '-' :: rest => (true, rest)
    | _ => (false, s)
  match parseIntPart s1 with
  | none => none
  | some (intDs, s2) =>
    match parseFracPart s2 with
    | none => none
    | some (fracDs, s3) =>
      match parseExpPart s3 with
      | none => none
      | some ((expNeg, expDs), s4) =>
        some (numberValue neg intDs fracDs expNeg expDs, s4)

/-- The body of a JSON string after the opening quote, with the basic escape
sequences; returns the decoded content and the rest after the closing quote. -/
def parseStringBody : ℕ → List Char → Option (List Char × List Char)
  | 0, _ => none
  | _, [] => none
  | fuel + 1, c :: rest =>
    if c = '"' then some ([], rest)
    else if c = '\\' then
      match rest with
      | '"' :: r2 => (parseStringBody fuel r2).map (fun p => ('"' :: p.1, p.2))
      | '\\' :: r2 => (parseStringBody fuel r2).map (fun p => ('\\' :: p.1, p.2))
      | '/' :: r2 => (parseStringBody fuel r2).map (fun p => ('/' :: p.1, p.2))
      | 'n' :: r2 => (parseStringBody fuel r2).map (fun p => ('\n' :: p.1, p.2))
      | 't' :: r2 => (parseStringBody fuel r2).map (fun p => ('\t' :: p.1, p.2))
      | 'r' :: r2 => (parseStringBody fuel r2).map (fun p => ('\r' :: p.1, p.2))
      | _ => none
    else (parseStringBody fuel rest).map (fun p => (c :: p.1, p.2))

mutual

/-- One JSON value at the head of the input (after whitespace); fuel-indexed
recursive descent. -/
def parseValue : ℕ → List Char → Option (Json × List Char)
  | 0, _ => none
  | fuel + 1, s =>
    match skipWs s with
    | [] => none
    | c :: rest =>
      if c = '{' then parseObjItems fuel rest true []
      else if c = '[' then parseArrItems fuel rest true []
      else if c = '"' then
        (parseStringBody (rest.length + 1) rest).map (fun p => (Json.str p.1, p.2))
      else if c = 't' then
        if ['r', 'u', 'e'].isPrefixOf rest then some (Json.jbool true, rest.drop 3) else none
      else if c = 'f' then
        if ['a', 'l', 's', 'e'].isPrefixOf rest then some (Json.jbool false, rest.drop 4) else none
      else if c = 'n' then
        if ['u', 'l', 'l'].isPrefixOf rest then some (Json.null, rest.drop 3) else none
      else
        (parseNumber (c :: rest)).map (fun p => (Json.num p.1, p.2))

/-- The items of a JSON array after the opening bracket. -/
def parseArrItems : ℕ → List Char → Bool → List Json → Option (Json × List Char)
  | 0, _, _, _ => none
  | fuel + 1, s, first, acc =>
    match skipWs s with
    | [] => none
    | c :: rest =>
      if c = ']' && first then some (Json.arr acc.reverse, rest)
      else
        match parseValue fuel (c :: rest) with
        | none => none
        | some (v, s2) =>
          match skipWs s2 with
          | ',' :: s3 => parseArrItems fuel s3 false (v :: acc)
          | ']' :: s3 => some (Json.arr (v :: acc).reverse, s3)
          | _ => none

/-- The members of a JSON object after the opening brace. -/
def parseObjItems : ℕ → List Char → Bool → List (List Char × Json) → Option (Json × List Char)
  | 0, _, _, _ => none
  | fuel + 1, s, first, acc =>
    match skipWs s with
    | [] => none
    | c :: rest =>
      if c = '}' && first then some (Json.obj acc.reverse, rest)
      else if c = '"' then
        match parseStringBody (rest.length + 1) rest with
        | none => none
        | some (k, s2) =>
          match skipWs s2 with
          | ':' :: s3 =>
            match parseValue fuel s3 with
            | none => none
            | some (v, s4) =>
              match skipWs s4 with
              | ',' :: s5 => parseObjItems fuel s5 false ((k, v) :: acc)
              | '}' :: s5 => some (Json.obj ((k, v) :: acc).reverse, s5)
              | _ => none
          | _ => none
      else none

end

/-- The model of Python json.loads: parse one JSON value and require that only
whitespace follows; none models a raised JSONDecodeError. -/
def json_loads (s : List Char) : Option Json :=
  match parseValue (2 * s.length + 2) s with
  | some (v, rest) => if (skipWs rest).isEmpty then some v else none
  | none => none

/-- Membership of a key in a parsed JSON object, Python `key in obj`. -/
def hasKey (kvs : List (List Char × Json)) (k : List Char) : Bool :=
  kvs.any (fun p => p.1 = k)

/-- First index at which pat occurs as a substring (re.search of a literal). -/
def strFind (pat : List Char) : List Char → Option ℕ
  | [] => if pat.isEmpty then some 0 else none
  | c :: rest =>
    if pat.isPrefixOf (c :: rest) then some 0
    else (strFind pat rest).map (· + 1)

/-- Leftmost non-greedy bracketed substring, the match of the Python regex
searching a lazy bracket-to-bracket pattern across newlines: the slice from
the first opening bracket to the first closing bracket after it. -/
def lazyBracket (s : List Char) : Option (List Char) :=
  match s.findIdx? (· = '[') with
  | none => none
  | some i =>
    let t := s.drop i
    match (t.drop 1).findIdx? (· = ']') with
    | none => none
    | some j => some (t.take (j + 2))

/-- Leftmost greedy bracketed substring, the match of the Python regex with a
greedy interior: the slice from the first opening bracket to the last closing
bracket of the string. -/
def greedyBracket (s : List Char) : Option (List Char) :=
  match s.findIdx? (· = '[') with
  | none => none
  | some i =>
    let t := s.drop i
    match t.reverse.findIdx? (· = ']') with
    | none => none
    | some j => if t.length - j ≥ 2 then some (t.take (t.length - j)) else none

/-- Interior of the first fenced code block: triple backtick, an optional
literal json tag, optional whitespace, then the lazily-matched interior up to
the closing triple backtick. -/
def fencedBlock (s : List Char) : Option (List Char) :=
  match strFind ['`', '`', '`'] s with
  | none => none
  | some i =>
    let t := s.drop (i + 3)
    let t2 := if ['j', 's', 'o', 'n'].isPrefixOf t then t.drop 4 else t
    let t3 := t2.dropWhile isWsChar
    match strFind ['`', '`', '`'] t3 with
    | none => none
    | some j => some (t3.take j)

/-- Non-overlapping scan for brace-delimited substrings with a nonempty
brace-free interior, the matches of Python re.finditer over a non-nested
object pattern; fuel-indexed (the string length suffices). -/
def objScanF : ℕ → List Char → List (List Char)
  | 0, _ => []
  | _ + 1, [] => []
  | fuel + 1, c :: rest =>
    if c = '{' then
      let body := rest.takeWhile (fun d => d ≠ '{' && d ≠ '}')
      match rest.drop body.length with
      | '}' :: tail =>
        if body.isEmpty then objScanF fuel rest
        else ('{' :: (body ++ ['}'])) :: objScanF fuel tail
      | _ => objScanF fuel rest
    else objScanF fuel rest

/-- All non-nested brace-delimited object substrings of s, left to right. -/
def objScan (s : List Char) : List (List Char) := objScanF s.length s

namespace AutoLabel

/-- CLASSES of autoLabel.py: the legacy 11-class vocabulary, name to id. -/
def CLASSES : List (List Char × ℕ) :=
  [("btn_fold".toList, 0), ("btn_check_call".toList, 1), ("btn_raise".toList, 2),
   ("btn_all_in".toList, 3), ("btn_deal_again".toList, 4), ("winner_banner".toList, 5),
   ("hole_card".toList, 6), ("board_card".toList, 7), ("pot_amount".toList, 8),
   ("card_back".toList, 9), ("bet_slider".toList, 10)]

/-- The object-scan fallback of parse_llm_response: parse each non-nested
brace-delimited substring independently, keeping the objects that contain both
a class key and an x key; parse failures are skipped silently. -/
def extract_objects (content : List Char) : List Json :=
  (objScan content).filterMap (fun piece =>
    match json_loads piece with
    | some (Json.obj kvs) =>
      if hasKey kvs ("class".toList) && hasKey kvs ("x".toList) then some (Json.obj kvs)
      else none
    | _ => none)

/-- parse_llm_response of autoLabel.py: search for the first lazy bracketed
substring and, when found, parse it; otherwise parse the whole string; a JSON
failure in either case falls back to the object scan. The result is the value
json.loads returned, or the list of scanned objects. -/
def parse_llm_response (content : List Char) : Json :=
  match lazyBracket content with
  | some piece =>
    match json_loads piece with
    | some v => v
    | none => Json.arr (extract_objects content)
  | none =>
    match json_loads content with
    | some v => v
    | none => Json.arr (extract_objects content)

/-- The class-name normalization of convert_to_yolo in autoLabel.py:
lower-case, spaces to underscores, then the ordered substring rules, first
match winning; an unmatched name passes through unchanged. -/
def normalize_class (raw : List Char) : List Char :=
  let cn := underscoreSpaces (lowerStr raw)
  if hasSub cn ("check".toList) || hasSub cn ("call".toList) then "btn_check_call".toList
  else if hasSub cn ("fold".toList) then "btn_fold".toList
  else if hasSub cn ("raise".toList) then "btn_raise".toList
  else if hasSub cn ("all".toList) && hasSub cn ("in".toList) then "btn_all_in".toList
  else if hasSub cn ("deal".toList) then "btn_deal_again".toList
  else if hasSub cn ("winner".toList) || hasSub cn ("banner".toList) then "winner_banner".toList
  else if hasSub cn ("hole".toList) then "hole_card".toList
  else if hasSub cn ("board".toList) || hasSub cn ("community".toList) then "board_card".toList
  else if hasSub cn ("pot".toList) then "pot_amount".toList
  else if hasSub cn ("back".toList) then "card_back".toList
  else if hasSub cn ("slider".toList) then "bet_slider".toList
  else cn

/-- A detection as convert_to_yolo reads it from a parsed object: the class
field (default empty string) and the four fraction coordinates (default 0). -/
structure Detection where
  class_name : List Char
  x : ℚ
  y : ℚ
  w : ℚ
  h : ℚ

/-- convert_to_yolo of autoLabel.py: per detection, normalize the class name,
drop it when the name is not in CLASSES, then validate the coordinates
(centers in [0,1], sizes in (0,1]) and drop on failure; survivors become label
lines in detection order. -/
def convert_to_yolo (detections : List Detection) : List YoloLine :=
  detections.filterMap (fun (det : Detection) =>
    let cname := normalize_class det.class_name
    match lookupClass CLASSES cname with
    | none => none
    | some class_id =>
      if 0 ≤ det.x ∧ det.x ≤ 1 ∧ 0 ≤ det.y ∧ det.y ≤ 1 ∧
          0 < det.w ∧ det.w ≤ 1 ∧ 0 < det.h ∧ det.h ≤ 1
      then some ⟨class_id, det.x, det.y, det.w, det.h⟩
      else none)

/-- The per-image outcome reported by process_image of autoLabel.py. -/
inductive Status where
  | skipped : Status
  | empty : Status
  | labeled : Status
deriving DecidableEq

/-- process_image of autoLabel.py: skip when a label artifact exists; write an
empty artifact on zero detections; otherwise write the converted lines. The
detections argument stands for the result of the LLM call (empty on any
transport failure). -/
def process_image (store : Store) (stem : String) (detections : List Detection) :
    Store × Status × ℕ :=
  match store stem with
  | some _ => (store, Status.skipped, 0)
  | none =>
    if detections.isEmpty then (writeStore store stem [], Status.empty, 0)
    else
      let yolo_lines := convert_to_yolo detections
      (writeStore store stem yolo_lines, Status.labeled, yolo_lines.length)

end AutoLabel

namespace AutoLabelPoker

/-- CLASSES of auto_label_poker.py: the 10-class poker-UI vocabulary. -/
def CLASSES : List (List Char × ℕ) :=
  [("button".toList, 0), ("card_face".toList, 1), ("card_back".toList, 2),
   ("chip_stack".toList, 3), ("pot_display".toList, 4), ("player_badge".toList, 5),
   ("slider".toList, 6), ("community_area".toList, 7), ("winner_banner".toList, 8),
   ("text_label".toList, 9)]

/-- parse_vlm_response of auto_label_poker.py: parse the whole string and
accept the result only when it is a sequence; else parse the interior of the
first fenced code block; else parse the greedy bracketed substring; else
return the empty list. The fenced and bracket stages return whatever
json.loads produced. -/
def parse_vlm_response (response : List Char) : Json :=
  match json_loads response with
  | some (Json.arr detections) => Json.arr detections
  | _ =>
    match fencedBlock response with
    | some g =>
      match json_loads g with
      | some v => v
      | none =>
        match greedyBracket response with
        | some b =>
          match json_loads b with
          | some v => v
          | none => Json.arr []
        | none => Json.arr []
    | none =>
      match greedyBracket response with
      | some b =>
        match json_loads b with
        | some v => v
        | none => Json.arr []
      | none => Json.arr []

/-- A detection as convert_to_yolo_format reads it: the class field (default
empty) and the pixel bbox list (default empty). -/
structure Detection where
  class_name : List Char
  bbox : List ℚ

/-- convert_to_yolo_format of auto_label_poker.py: lower-case the class name
and drop the detection when it is not in CLASSES; require a 4-element bbox;
divide center x and width by the image width, center y and height by the image
height; clamp each of the four fractions into [0,1]; emit the label line. A
zero-sized box is not rejected. -/
def convert_to_yolo_format (detection : Detection) (img_width img_height : ℚ) :
    Option YoloLine :=
  match lookupClass CLASSES (lowerStr detection.class_name) with
  | none => none
  | some class_id =>
    match detection.bbox with
    | [x_center, y_center, width, height] =>
      some ⟨class_id,
        clamp01 (x_center / img_width), clamp01 (y_center / img_height),
        clamp01 (width / img_width), clamp01 (height / img_height)⟩
    | _ => none

/-- process_image of auto_label_poker.py: the detections argument stands for
the result of ask_vlm (none on transport failure, a list otherwise). With no
detections the function returns without touching the store; otherwise the
converted labels are written (overwriting any existing artifact) and counted. -/
def process_image (store : Store) (stem : String) (img_width img_height : ℚ)
    (detections : Option (List Detection)) : Store × ℕ :=
  match detections with
  | none => (store, 0)
  | some [] => (store, 0)
  | some (det0 :: rest) =>
    let yolo_labels := (det0 :: rest).filterMap
      (fun det => convert_to_yolo_format det img_width img_height)
    (writeStore store stem yolo_labels, yolo_labels.length)

end AutoLabelPoker

namespace FastLabel

/-- CLASSES of fastLabel.py: identical to the autoLabel vocabulary. -/
def CLASSES : List (List Char × ℕ) := AutoLabel.CLASSES

/-- Access CLASSES[name], total because every template name is a key. -/
def classId (name : List Char) : ℕ := (lookupClass CLASSES name).getD 0

/-- One fixed normalized position entry of the template tables. -/
structure Pos where
  x : ℚ
  y : ℚ
  w : ℚ
  h : ℚ

/-- ACTION_BUTTONS of fastLabel.py. -/
def ACTION_BUTTONS : List (List Char × Pos) :=
  [("btn_fold".toList, ⟨0.128, 0.970, 0.22, 0.045⟩),
   ("btn_check_call".toList, ⟨0.372, 0.970, 0.22, 0.045⟩),
   ("btn_raise".toList, ⟨0.616, 0.970, 0.22, 0.045⟩),
   ("btn_all_in".toList, ⟨0.860, 0.970, 0.22, 0.045⟩)]

/-- DEAL_AGAIN of fastLabel.py. -/
def DEAL_AGAIN : Pos := ⟨0.5, 0.970, 0.90, 0.050⟩

/-- POT_DISPLAY of fastLabel.py. -/
def POT_DISPLAY : Pos := ⟨0.5, 0.720, 0.20, 0.080⟩

/-- BET_SLIDER of fastLabel.py. -/
def BET_SLIDER : Pos := ⟨0.5, 0.920, 0.85, 0.035⟩

/-- HOLE_CARDS of fastLabel.py. -/
def HOLE_CARDS : List Pos :=
  [⟨0.42, 0.830, 0.12, 0.13⟩, ⟨0.58, 0.830, 0.12, 0.13⟩]

/-- BOARD_CARDS of fastLabel.py. -/
def BOARD_CARDS : List Pos :=
  [⟨0.26, 0.610, 0.10, 0.11⟩, ⟨0.38, 0.610, 0.10, 0.11⟩, ⟨0.50, 0.610, 0.10, 0.11⟩,
   ⟨0.62, 0.610, 0.10, 0.11⟩, ⟨0.74, 0.610, 0.10, 0.11⟩]

/-- WINNER_BANNER of fastLabel.py. -/
def WINNER_BANNER : Pos := ⟨0.5, 0.560, 0.80, 0.045⟩

/-- A label line from one template position. -/
def posLine (cid : ℕ) (p : Pos) : YoloLine := ⟨cid, p.x, p.y, p.w, p.h⟩

/-- generate_action_labels of fastLabel.py: the four action buttons, the bet
slider, the pot display, both hole cards and the first four board cards. -/
def generate_action_labels : List YoloLine :=
  (ACTION_BUTTONS.map (fun p => posLine (classId p.1) p.2))
    ++ [posLine (classId ("bet_slider".toList)) BET_SLIDER]
    ++ [posLine (classId ("pot_amount".toList)) POT_DISPLAY]
    ++ (HOLE_CARDS.map (posLine (classId ("hole_card".toList))))
    ++ ((BOARD_CARDS.take 4).map (posLine (classId ("board_card".toList))))

/-- generate_deal_again_labels of fastLabel.py: the deal-again button, the
winner banner, the pot display, both hole cards and all five board cards. -/
def generate_deal_again_labels : List YoloLine :=
  [posLine (classId ("btn_deal_again".toList)) DEAL_AGAIN]
    ++ [posLine (classId ("winner_banner".toList)) WINNER_BANNER]
    ++ [posLine (classId ("pot_amount".toList)) POT_DISPLAY]
    ++ (HOLE_CARDS.map (posLine (classId ("hole_card".toList))))
    ++ (BOARD_CARDS.map (posLine (classId ("board_card".toList))))

/-- classify_image of fastLabel.py, on the lower-cased file basename. -/
def classify_image (name : List Char) : List Char :=
  let n := lowerStr name
  if hasSub n ("deal_again".toList) then "deal_again".toList
  else if hasSub n ("action".toList) then "action".toList
  else "unknown".toList

/-- The body of the main loop of fastLabel.py for one image: classify the
filename, pick the template (the unknown class defaults to the action
template) and write the label file, overwriting whatever was there. -/
def label_one (store : Store) (stem : String) (name : List Char) : Store :=
  let img_type := classify_image name
  let labels :=
    if img_type = "action".toList then generate_action_labels
    else if img_type = "deal_again".toList then generate_deal_again_labels
    else generate_action_labels
  writeStore store stem labels

end FastLabel

namespace TrainPoker

/-- One line check of validate_labels in train_poker.py, on the line already
split into whitespace-separated fields, each field given by its numeric value:
exactly five fields; a class id that is integral (int() of a non-integral
field raises, which the surrounding handler counts as invalid) and within 0
to 10; the four coordinates each within [0,1]. Zero width or height passes. -/
def validate_line (parts : List ℚ) : Bool :=
  match parts with
  | [class_id, x, y, w, h] =>
    if class_id.den ≠ 1 then false
    else if class_id < 0 ∨ class_id > 10 then false
    else if [x, y, w, h].any (fun c => decide (c < 0) || decide (c > 1)) then false
    else true
  | _ => false

/-- Modelled from the claim wording for the validation invariant: five fields,
an integral class id belonging to the active vocabulary (ids 0 to 10), centers
in [0,1] and sizes in (0,1], strictly positive. -/
def valid_line_claim (parts : List ℚ) : Bool :=
  match parts with
  | [class_id, x, y, w, h] =>
    decide (class_id.den = 1) && decide (0 ≤ class_id) && decide (class_id ≤ 10) &&
    decide (0 ≤ x) && decide (x ≤ 1) && decide (0 ≤ y) && decide (y ≤ 1) &&
    decide (0 < w) && decide (w ≤ 1) && decide (0 < h) && decide (h ≤ 1)
  | _ => false

/-- Modelled from the amended claim wording: as the claim, except that the
four coordinates all range over the closed interval [0,1], so zero-sized
boxes count as valid. -/
def valid_line_amended (parts : List ℚ) : Bool :=
  match parts with
  | [class_id, x, y, w, h] =>
    decide (class_id.den = 1) && decide (0 ≤ class_id) && decide (class_id ≤ 10) &&
    decide (0 ≤ x) && decide (x ≤ 1) && decide (0 ≤ y) && decide (y ≤ 1) &&
    decide (0 ≤ w) && decide (w ≤ 1) && decide (0 ≤ h) && decide (h ≤ 1)
  | _ => false

end TrainPoker

namespace Sam3

/-- The bounding-box prompt of the segmentation request, pixel ints. -/
structure BBox where
  x : ℤ
  y : ℤ
  w : ℤ
  h : ℤ

/-- A click point in pixels. -/
structure ClickPoint where
  x : ℤ
  y : ℤ
deriving DecidableEq

/-- The click point returned by the mock branch of the segment endpoint in
sam3/main.py: the center of the coarse bbox when one was provided, else the
provided point prompt, else the fixed default (640, 413), the SPIN-button
area. Python floor division models the // halving. -/
def mock_click (coarse_bbox : Option BBox) (point : Option ClickPoint) : ClickPoint :=
  match coarse_bbox with
  | some b => ⟨b.x + Int.fdiv b.w 2, b.y + Int.fdiv b.h 2⟩
  | none =>
    match point with
    | some p => ⟨p.x, p.y⟩
    | none => ⟨640, 413⟩

/-- The click point chosen by the real branch of the segment endpoint when the
best mask contains no pixels: the center of the coarse bbox when one was
provided, else the image center. -/
def empty_mask_click (coarse_bbox : Option BBox) (img_width img_height : ℕ) : ClickPoint :=
  match coarse_bbox with
  | some b => ⟨b.x + Int.fdiv b.w 2, b.y + Int.fdiv b.h 2⟩
  | none => ⟨(img_width / 2 : ℕ), (img_height / 2 : ℕ)⟩

/-- The center of a bbox as both fallbacks compute it. -/
def bbox_center (b : BBox) : ClickPoint := ⟨b.x + Int.fdiv b.w 2, b.y + Int.fdiv b.h 2⟩

/-- The center of the image as the empty-mask fallback computes it. -/
def image_center (img_width img_height : ℕ) : ClickPoint :=
  ⟨(img_width / 2 : ℕ), (img_height / 2 : ℕ)⟩

end Sam3

namespace DetectorMain

/-- A detected element of the detector response in detector/main.py. -/
structure CandidateElement where
  id : String
  type : Option String
  text : Option String
  role : Option String
  bx : ℤ
  by' : ℤ
  bw : ℤ
  bh : ℤ
  confidence : Option ℚ

/-- The sort key for an element, Python e.confidence or 0: a missing (or zero)
confidence counts as 0. -/
def sortKey (e : CandidateElement) : ℚ :=
  match e.confidence with
  | some c => c
  | none => 0

/-- Descending-confidence comparison used to sort the elements. -/
def confDesc (a b : CandidateElement) : Bool := decide (sortKey b ≤ sortKey a)

/-- The post-processing at the end of the non-mock detect path: stable sort by
descending confidence, then keep the top 20. -/
def finalize (elements : List CandidateElement) : List CandidateElement :=
  (elements.mergeSort confDesc).take 20

/-- The non-mock detect response: the post-processed list and its length as
the count field. -/
def detect_response (elements : List CandidateElement) :
    List CandidateElement × ℕ :=
  let es := finalize elements
  (es, es.length)

end DetectorMain

/-- The integer content of one coordinate field as written with fixed
6-decimal precision: the Python format rounds the value to 6 decimals, so the
field denotes round(q * 10^6) scaled down. -/
def render6 (q : ℚ) : ℤ := round (q * 1000000)

/-- The exact value a 6-decimal coordinate field denotes when read back by
float(). -/
def parse6 (z : ℤ) : ℚ := (z : ℚ) / 1000000

/-- Serialization of one label line into its five fields: the class id and
the four 6-decimal coordinate fields. -/
def serialize_line (l : YoloLine) : ℕ × ℤ × ℤ × ℤ × ℤ :=
  (l.cid, render6 l.x, render6 l.y, render6 l.w, render6 l.h)

/-- Re-parsing one serialized line: int of the first field, float of the
remaining four. -/
def parse_line (t : ℕ × ℤ × ℤ × ℤ × ℤ) : YoloLine :=
  ⟨t.1, parse6 t.2.1, parse6 t.2.2.1, parse6 t.2.2.2.1, parse6 t.2.2.2.2⟩

/-- Modelled from the amended claim wording for the poker response parser: the
ordered chain whole-string-if-sequence, then fenced block, then greedy
bracketed substring, first success winning, with the empty list as final
fallback. -/
def vlm_chain (response : List Char) : Json :=
  (Option.orElse
    (match json_loads response with
      | some (Json.arr detections) => some (Json.arr detections)
      | _ => none)
    (fun _ => Option.orElse ((fencedBlock response).bind json_loads)
      (fun _ => (greedyBracket response).bind json_loads))).getD (Json.arr [])

/-- Modelled from the amended claim wording for the autoLabel response parser:
when a lazy bracketed substring exists it is parsed, otherwise the whole
string is parsed; in either case a JSON failure falls back to the object scan
(kept objects need both a class and an x key). There is no fenced-block stage
and the whole-string stage is not attempted when a bracketed substring
exists. -/
def llm_chain (content : List Char) : Json :=
  match lazyBracket content with
  | some piece => (json_loads piece).getD (Json.arr (AutoLabel.extract_objects content))
  | none => (json_loads content).getD (Json.arr (AutoLabel.extract_objects content))

/-- C1: for a pixel-mode detection whose class resolves in the poker
vocabulary and whose bbox has the four pixel entries cx, cy, w, h, with
positive image dimensions W and H, convert_to_yolo_format produces exactly the
four fractions cx/W, cy/H, w/W, h/H, each clamped into [0,1] by min/max. -/
theorem convert_pixel_normalization
    (det : AutoLabelPoker.Detection) (cid : ℕ) (cx cy w h W H : ℚ)
    (hW : 0 < W) (hH : 0 < H)
    (hc : lookupClass AutoLabelPoker.CLASSES (lowerStr det.class_name) = some cid)
    (hb : det.bbox = [cx, cy, w, h]) :
    AutoLabelPoker.convert_to_yolo_format det W H
      = some ⟨cid, clamp01 (cx / W), clamp01 (cy / H), clamp01 (w / W), clamp01 (h / H)⟩ := by
  unfold AutoLabelPoker.convert_to_yolo_format
  rw [hc, hb]

/-- Witness for C1 at a concrete detection: a 200 by 100 image and the pixel
box [100, 50, 60, 30] of class button. -/
theorem convert_pixel_normalization_witness :
    AutoLabelPoker.convert_to_yolo_format ⟨"button".toList, [100, 50, 60, 30]⟩ 200 100
      = some ⟨0, clamp01 (100 / 200), clamp01 (50 / 100),
              clamp01 (60 / 200), clamp01 (30 / 100)⟩ :=
  convert_pixel_normalization ⟨"button".toList, [100, 50, 60, 30]⟩ 0 100 50 60 30 200 100
    (by norm_num) (by norm_num) (by decide) rfl

/-- C7: the class normalizer maps the three spellings of the check/call action
to the one canonical name, which carries id 1 in the active vocabulary. -/
theorem check_call_aliases :
    AutoLabel.normalize_class ("Check / Call".toList) = "btn_check_call".toList ∧
    AutoLabel.normalize_class ("CALL".toList) = "btn_check_call".toList ∧
    AutoLabel.normalize_class ("check_button".toList) = "btn_check_call".toList ∧
    lookupClass AutoLabel.CLASSES ("btn_check_call".toList) = some 1 := by
  refine ⟨by decide, by decide, by decide, by decide⟩

/-- C9 (corrected): the empty-mask fallback of the real branch uses the bbox
center, else the image center; the mock branch uses the bbox center, else the
point prompt, else the fixed default point (640, 413). -/
theorem click_fallback_characterization (b : Sam3.BBox) (p : Sam3.ClickPoint) (W H : ℕ) :
    Sam3.empty_mask_click (some b) W H = Sam3.bbox_center b ∧
    Sam3.empty_mask_click none W H = Sam3.image_center W H ∧
    Sam3.mock_click (some b) (some p) = Sam3.bbox_center b ∧
    Sam3.mock_click (some b) none = Sam3.bbox_center b ∧
    Sam3.mock_click none (some p) = p ∧
    Sam3.mock_click none none = ⟨640, 413⟩ :=
  ⟨rfl, rfl, rfl, rfl, rfl, rfl⟩

/-- C9 counterexample: with no model and no prompts at all, the returned click
point is the fixed default (640, 413) and not the center of the (100 by 100)
image, contradicting the claim that the fallback is the image center. -/
theorem mock_default_not_image_center :
    Sam3.mock_click none none = ⟨640, 413⟩ ∧
    Sam3.mock_click none none ≠ Sam3.image_center 100 100 :=
  ⟨rfl, by decide⟩

/-- C5 (corrected): on zero detections autoLabel's process_image still writes
an empty artifact and reports the image as empty, while auto_label_poker's
process_image returns without writing anything. -/
theorem empty_artifact_on_zero_detections (store : Store) (stem : String)
    (W H : ℚ) (h : store stem = none) :
    AutoLabel.process_image store stem []
      = (writeStore store stem [], AutoLabel.Status.empty, 0) ∧
    AutoLabelPoker.process_image store stem W H (some []) = (store, 0) := by
  constructor
  · unfold AutoLabel.process_image
    rw [h]
    rfl
  · rfl

/-- Witness for C5 at a concrete store with no artifact for the image. -/
theorem empty_artifact_on_zero_detections_witness :
    AutoLabel.process_image (fun _ => none) "img_0001" []
      = (writeStore (fun _ => none) "img_0001" [], AutoLabel.Status.empty, 0) ∧
    AutoLabelPoker.process_image (fun _ => none) "img_0001" 100 100 (some []) =
      ((fun _ => none : Store), 0) :=
  empty_artifact_on_zero_detections (fun _ => none) "img_0001" 100 100 rfl

/-- C5 counterexample: after auto_label_poker's process_image runs on an image
whose model call yielded zero detections, the label store still holds no
artifact for that image, contradicting the claim that an empty label artifact
is written. -/
theorem no_artifact_on_zero_detections :
    (AutoLabelPoker.process_image (fun _ => none) "img_0001" 100 100 (some [])).1 "img_0001"
      = none := rfl

/-- C3 (corrected): autoLabel's process_image performs no write when a label
artifact already exists (so a second run leaves the file identical), and
fastLabel's write is deterministic, so an immediate second fastLabel run
changes nothing either; fastLabel however always writes. -/
theorem skip_existing_label (store : Store) (stem : String) (name : List Char)
    (dets : List AutoLabel.Detection) (h : store stem ≠ none) :
    AutoLabel.process_image store stem dets = (store, AutoLabel.Status.skipped, 0) ∧
    FastLabel.label_one (FastLabel.label_one store stem name) stem name
      = FastLabel.label_one store stem name := by
  constructor
  · unfold AutoLabel.process_image
    rcases hs : store stem with _ | c
    · exact absurd hs h
    · rfl
  · unfold FastLabel.label_one writeStore
    funext s
    by_cases hs : s = stem <;> simp [hs]

/-- Witness for C3 at a concrete store already holding an artifact. -/
theorem skip_existing_label_witness :
    AutoLabel.process_image (fun _ => some []) "img_0001" []
      = ((fun _ => some [] : Store), AutoLabel.Status.skipped, 0) ∧
    FastLabel.label_one (FastLabel.label_one (fun _ => some []) "img_0001" ("a".toList))
        "img_0001" ("a".toList)
      = FastLabel.label_one (fun _ => some []) "img_0001" ("a".toList) :=
  skip_existing_label (fun _ => some []) "img_0001" ("a".toList) [] (by simp)

/-- C3 counterexample: fastLabel run on an image whose label artifact already
exists overwrites it with the template content, which differs from the
existing content, contradicting the claim that the label writer performs no
write and leaves an existing artifact unchanged. -/
theorem overwrites_existing_label :
    FastLabel.label_one (fun s => if s = "img_action" then some [⟨0, 0, 0, 1, 1⟩] else none)
        "img_action" ("img_action.png".toList) "img_action"
      = some FastLabel.generate_action_labels
    ∧ FastLabel.generate_action_labels ≠ [(⟨0, 0, 0, 1, 1⟩ : YoloLine)] :=
  ⟨rfl, fun hcontra => absurd (congrArg List.length hcontra) (by decide)⟩

/-- C2 (corrected): autoLabel's convert_to_yolo drops a detection whose class
does not resolve or whose width or height is 0, leaving the labels of the
surrounding detections unchanged; auto_label_poker's convert_to_yolo_format
drops an unresolved class. (Its treatment of zero sizes is the
counterexample.) -/
theorem drop_invalid_detection (pre post : List AutoLabel.Detection)
    (d : AutoLabel.Detection) (pd : AutoLabelPoker.Detection) (W H : ℚ)
    (hd : lookupClass AutoLabel.CLASSES (AutoLabel.normalize_class d.class_name) = none ∨
        d.w = 0 ∨ d.h = 0)
    (hpd : lookupClass AutoLabelPoker.CLASSES (lowerStr pd.class_name) = none) :
    AutoLabel.convert_to_yolo (pre ++ d :: post) = AutoLabel.convert_to_yolo (pre ++ post) ∧
    AutoLabelPoker.convert_to_yolo_format pd W H = none := by
  constructor
  · unfold AutoLabel.convert_to_yolo
    simp only [List.filterMap_append, List.filterMap_cons]
    rcases hd with h | h | h
    · rw [h]
    · rcases lookupClass AutoLabel.CLASSES (AutoLabel.normalize_class d.class_name) with _ | cid
      · rfl
      · simp [h]
    · rcases lookupClass AutoLabel.CLASSES (AutoLabel.normalize_class d.class_name) with _ | cid
      · rfl
      · simp [h]
  · unfold AutoLabelPoker.convert_to_yolo_format
    rw [hpd]

/-- Witness for C2: a zero-width fold-button detection dropped between two
kept detections, and a spaceship class dropped by the poker converter. -/
theorem drop_invalid_detection_witness :
    AutoLabel.convert_to_yolo
        ([⟨"fold".toList, 1, 1, 1, 1⟩] ++ ⟨"raise".toList, 1, 1, 0, 1⟩ :: [⟨"pot".toList, 1, 1, 1, 1⟩])
      = AutoLabel.convert_to_yolo ([⟨"fold".toList, 1, 1, 1, 1⟩] ++ [⟨"pot".toList, 1, 1, 1, 1⟩]) ∧
    AutoLabelPoker.convert_to_yolo_format ⟨"spaceship".toList, [1, 1, 1, 1]⟩ 2 2 = none :=
  drop_invalid_detection [⟨"fold".toList, 1, 1, 1, 1⟩] [⟨"pot".toList, 1, 1, 1, 1⟩]
    ⟨"raise".toList, 1, 1, 0, 1⟩ ⟨"spaceship".toList, [1, 1, 1, 1]⟩ 2 2
    (Or.inr (Or.inl rfl)) (by decide)

/-- C2 counterexample: auto_label_poker's converter emits a label for a
detection whose width is exactly 0 after clamping, contradicting the claim
that zero-sized detections produce no label. -/
theorem zero_width_label_emitted :
    AutoLabelPoker.convert_to_yolo_format ⟨"button".toList, [100, 100, 0, 50]⟩ 200 200
      = some ⟨0, clamp01 (100 / 200), clamp01 (100 / 200),
              clamp01 (0 / 200), clamp01 (50 / 200)⟩
    ∧ clamp01 (0 / 200) = 0 :=
  ⟨rfl, by norm_num [clamp01]⟩

/-- Rendering a coordinate at fixed 6-decimal precision and reading it back
moves it by at most 10^-6. -/
theorem parse6_render6 (q : ℚ) : |parse6 (render6 q) - q| ≤ 1 / 1000000 := by
  have h : |q * 1000000 - (round (q * 1000000) : ℚ)| ≤ 1 / 2 := abs_sub_round (q * 1000000)
  have key : parse6 (render6 q) - q = ((round (q * 1000000) : ℚ) - q * 1000000) / 1000000 := by
    unfold parse6 render6
    ring
  rw [key, abs_div, abs_sub_comm, abs_of_pos (by norm_num : (0 : ℚ) < 1000000)]
  calc |q * 1000000 - (round (q * 1000000) : ℚ)| / 1000000
      ≤ (1 / 2) / 1000000 := by
        apply div_le_div_of_nonneg_right h
        norm_num
    _ ≤ 1 / 1000000 := by norm_num

/-- C6: serializing a sequence of labels as five fields with the four
coordinates at fixed 6-decimal precision and re-parsing reproduces, in order,
the same class ids exactly and every coordinate within 10^-6. -/
theorem label_roundtrip_within_eps (labels : List YoloLine) :
    List.Forall₂ (fun a b => a.cid = b.cid ∧
        |b.x - a.x| ≤ 1 / 1000000 ∧ |b.y - a.y| ≤ 1 / 1000000 ∧
        |b.w - a.w| ≤ 1 / 1000000 ∧ |b.h - a.h| ≤ 1 / 1000000)
      labels ((labels.map serialize_line).map parse_line) := by
  rw [List.map_map]
  induction labels with
  | nil => exact List.Forall₂.nil
  | cons l ls ih =>
    exact List.Forall₂.cons
      ⟨rfl, parse6_render6 l.x, parse6_render6 l.y, parse6_render6 l.w, parse6_render6 l.h⟩ ih

/-- C10: the non-mock detect response holds at most 20 elements, sorted in
non-increasing order of confidence with a missing confidence treated as 0, and
its count field equals the length of its detections list. -/
theorem detect_response_invariants (elements : List DetectorMain.CandidateElement) :
    (DetectorMain.detect_response elements).1.length ≤ 20 ∧
    List.Pairwise (fun a b => DetectorMain.sortKey b ≤ DetectorMain.sortKey a)
      (DetectorMain.detect_response elements).1 ∧
    (DetectorMain.detect_response elements).2
      = (DetectorMain.detect_response elements).1.length := by
  refine ⟨?_, ?_, rfl⟩
  · simpa [DetectorMain.detect_response, DetectorMain.finalize] using
      List.length_take_le 20 (elements.mergeSort DetectorMain.confDesc)
  · have htrans : ∀ a b c, DetectorMain.confDesc a b = true → DetectorMain.confDesc b c = true →
        DetectorMain.confDesc a c = true := by
      intro a b c hab hbc
      simp only [DetectorMain.confDesc, decide_eq_true_eq] at *
      exact le_trans hbc hab
    have htotal : ∀ a b, (DetectorMain.confDesc a b || DetectorMain.confDesc b a) = true := by
      intro a b
      simp only [DetectorMain.confDesc, Bool.or_eq_true, decide_eq_true_eq]
      exact le_total (DetectorMain.sortKey b) (DetectorMain.sortKey a)
    have hs := List.sorted_mergeSort htrans htotal elements
    have hp : List.Pairwise (fun a b => DetectorMain.confDesc a b = true)
        ((elements.mergeSort DetectorMain.confDesc).take 20) :=
      List.Pairwise.sublist (List.take_sublist 20 _) hs
    refine List.Pairwise.imp ?_ hp
    intro a b hab
    simpa [DetectorMain.confDesc, decide_eq_true_eq] using hab

/-- C8 (corrected): a label-file line counts as valid exactly when it has five
fields, an integral class id between 0 and 10, and all four coordinates in the
closed interval [0,1]; zero width or height is accepted, unlike the claimed
strict positivity. -/
theorem validate_line_characterization (parts : List ℚ) :
    TrainPoker.validate_line parts = TrainPoker.valid_line_amended parts := by
  rcases parts with _ | ⟨c, _ | ⟨x, _ | ⟨y, _ | ⟨w, _ | ⟨h, _ | ⟨e, rest⟩⟩⟩⟩⟩⟩ <;> try rfl
  unfold TrainPoker.validate_line TrainPoker.valid_line_amended
  dsimp only
  split_ifs with h1 h2 h3
  · simp [h1]
  · rcases h2 with h | h <;> simp [not_le.mpr h]
  · simp only [List.any_cons, List.any_nil, Bool.or_eq_true, Bool.or_false,
      decide_eq_true_eq] at h3
    rcases h3 with (h | h) | (h | h) | (h | h) | (h | h) <;> simp [not_le.mpr h]
  · simp only [List.any_cons, List.any_nil, Bool.or_eq_true, Bool.or_false,
      decide_eq_true_eq, not_or, not_lt] at h2 h3
    simp_all

/-- C8 counterexample: a five-field line with width exactly 0 is counted valid
by validate_labels, though the claimed invariant requires strictly positive
width; the claim-side check rejects it. -/
theorem zero_width_line_counted_valid :
    TrainPoker.validate_line [0, mkRat 1 2, mkRat 1 2, 0, mkRat 1 2] = true ∧
    TrainPoker.valid_line_claim [0, mkRat 1 2, mkRat 1 2, 0, mkRat 1 2] = false :=
  ⟨by decide, by decide⟩

/-- C4 (corrected): each parser is the ordered chain it actually implements,
first success winning. parse_vlm_response tries the whole string (accepting
only sequences), then the fenced block, then the greedy bracketed substring,
then returns the empty list; it has no object-scan stage. parse_llm_response
tries the lazy bracketed substring first and parses the whole string only when
no bracketed substring exists, falling back to the object scan on a JSON
failure in either case. -/
theorem parser_fallback_chains (content : List Char) :
    AutoLabelPoker.parse_vlm_response content = vlm_chain content ∧
    AutoLabel.parse_llm_response content = llm_chain content := by
  constructor
  · unfold AutoLabelPoker.parse_vlm_response vlm_chain
    rcases json_loads content with _ | v
    case none =>
      dsimp only [Option.orElse, Option.getD, Option.bind]
      rcases fencedBlock content with _ | g
      · dsimp only [Option.orElse, Option.getD, Option.bind]
        rcases greedyBracket content with _ | b
        · rfl
        · dsimp only [Option.orElse, Option.getD, Option.bind]
          rcases json_loads b with _ | u <;> rfl
      · dsimp only [Option.orElse, Option.getD, Option.bind]
        rcases json_loads g with _ | u
        · dsimp only [Option.orElse, Option.getD, Option.bind]
          rcases greedyBracket content with _ | b
          · rfl
          · dsimp only [Option.orElse, Option.getD, Option.bind]
            rcases json_loads b with _ | u2 <;> rfl
        · rfl
    case some =>
      cases v
      case arr => rfl
      all_goals {
        dsimp only [Option.orElse, Option.getD, Option.bind]
        rcases fencedBlock content with _ | g
        · dsimp only [Option.orElse, Option.getD, Option.bind]
          rcases greedyBracket content with _ | b
          · rfl
          · dsimp only [Option.orElse, Option.getD, Option.bind]
            rcases json_loads b with _ | u <;> rfl
        · dsimp only [Option.orElse, Option.getD, Option.bind]
          rcases json_loads g with _ | u
          · dsimp only [Option.orElse, Option.getD, Option.bind]
            rcases greedyBracket content with _ | b
            · rfl
            · dsimp only [Option.orElse, Option.getD, Option.bind]
              rcases json_loads b with _ | u2 <;> rfl
          · rfl
      }
  · unfold AutoLabel.parse_llm_response llm_chain
    rcases lazyBracket content with _ | piece
    · dsimp only [Option.orElse, Option.getD, Option.bind]
      rcases json_loads content with _ | v <;> rfl
    · dsimp only [Option.orElse, Option.getD, Option.bind]
      rcases json_loads piece with _ | v <;> rfl

/-- C4 counterexample: on a response that is, in its entirety, a valid JSON
array whose first closing bracket does not end the array, the whole-string
parse succeeds with a sequence, yet parse_llm_response returns the empty list:
the lazy bracket search fires first, its slice fails to parse, and the object
scan finds nothing. The claimed chain (whole string first) would return the
parsed sequence. -/
theorem bracket_first_beats_whole_parse :
    json_loads ("[1, [2]]".toList) = some (Json.arr [Json.num 1, Json.arr [Json.num 2]]) ∧
    AutoLabel.parse_llm_response ("[1, [2]]".toList) = Json.arr [] :=
  ⟨rfl, rfl⟩
